import Mathlib

/-
Verification of the Scale Sense AI diet/workout prediction service.

The service (src/testapi1.py, src/app.py) is a single-endpoint HTTP API:
it validates 13 required numeric fields, builds a fixed-order feature
vector, runs a predictor, and assembles meal/workout plans from two
static catalogs.  This file shallowly embeds that pipeline.

Modelling conventions:
  * JSON numbers are modelled as exact rationals.  The Python float
    literal 1.2 is modelled as the rational 12/10; the one claim that
    touches rounding is settled by an input (a negative bmr value) on
    which binary floating point and exact rationals agree.
  * Python int() truncates toward zero; pyInt below models it.
  * Python str.lower() is modelled by strLower below (character-wise
    Char.toLower); every string the code compares is ASCII, where the
    two agree.
  * The Flask 400 response is the Response.badRequest constructor, the
    200 response is Response.ok.
-/

/-- Python int() applied to a real number: truncation toward zero. -/
def pyInt (q : ℚ) : ℤ := if 0 ≤ q then ⌊q⌋ else ⌈q⌉

/-- Python str.lower(), over the character list of the string (the
strings this code compares are ASCII, on which this agrees with
Python). -/
def strLower (s : String) : String := String.mk (s.data.map Char.toLower)

/-- Contiguous-sublist test on character lists, the meaning of the
Python substring operator in. -/
def hasSubList (needle : List Char) : List Char → Bool
  | [] => needle.isEmpty
  | c :: rest => List.isPrefixOf needle (c :: rest) || hasSubList needle rest

/-- The single-quote character, written by code point to keep source plain. -/
def squote : String := String.singleton (Char.ofNat 39)

/-- A request body: each of the 13 required numeric keys may be absent,
as may the 5 optional string keys (testapi1.py lines 50 to 71). -/
structure Request where
  age : Option ℚ
  gender : Option ℚ
  height_cm : Option ℚ
  weight_kg : Option ℚ
  bmi : Option ℚ
  body_fat_percent : Option ℚ
  muscle_mass_kg : Option ℚ
  bone_mass_kg : Option ℚ
  water_percent : Option ℚ
  bmr_kcal : Option ℚ
  visceral_fat : Option ℚ
  metabolic_age : Option ℚ
  activity_level : Option ℚ
  user_allergy : Option String
  user_preference : Option String
  diet_type : Option String
  workout_preference : Option String
  user_goal : Option String
deriving DecidableEq

/-- The 13 required fields once extracted (testapi1.py lines 50 to 62). -/
structure UserProfile where
  age : ℚ
  gender : ℚ
  height_cm : ℚ
  weight_kg : ℚ
  bmi : ℚ
  body_fat_percent : ℚ
  muscle_mass_kg : ℚ
  bone_mass_kg : ℚ
  water_percent : ℚ
  bmr_kcal : ℚ
  visceral_fat : ℚ
  metabolic_age : ℚ
  activity_level : ℚ
deriving DecidableEq

/-- data[k] in Python: the value when present, a KeyError carrying the
key name otherwise (testapi1.py lines 49 to 64). -/
def reqField (v : Option ℚ) (name : String) : Except String ℚ :=
  match v with
  | some x => Except.ok x
  | none => Except.error name

/-- The required-parameter block of predict_route (testapi1.py lines
49 to 64): thirteen lookups in source order, stopping at the first
absent key. -/
def parseProfile (r : Request) : Except String UserProfile := do
  let age ← reqField r.age "age"
  let gender ← reqField r.gender "gender"
  let height_cm ← reqField r.height_cm "height_cm"
  let weight_kg ← reqField r.weight_kg "weight_kg"
  let bmi ← reqField r.bmi "bmi"
  let body_fat_percent ← reqField r.body_fat_percent "body_fat_percent"
  let muscle_mass_kg ← reqField r.muscle_mass_kg "muscle_mass_kg"
  let bone_mass_kg ← reqField r.bone_mass_kg "bone_mass_kg"
  let water_percent ← reqField r.water_percent "water_percent"
  let bmr_kcal ← reqField r.bmr_kcal "bmr_kcal"
  let visceral_fat ← reqField r.visceral_fat "visceral_fat"
  let metabolic_age ← reqField r.metabolic_age "metabolic_age"
  let activity_level ← reqField r.activity_level "activity_level"
  pure ⟨age, gender, height_cm, weight_kg, bmi, body_fat_percent,
        muscle_mass_kg, bone_mass_kg, water_percent, bmr_kcal,
        visceral_fat, metabolic_age, activity_level⟩

/-- The fixed enumeration order of the 13 required keys, paired with
their accessors, as written in the source. -/
def requiredFields : List (String × (Request → Option ℚ)) :=
  [("age", Request.age), ("gender", Request.gender),
   ("height_cm", Request.height_cm), ("weight_kg", Request.weight_kg),
   ("bmi", Request.bmi), ("body_fat_percent", Request.body_fat_percent),
   ("muscle_mass_kg", Request.muscle_mass_kg),
   ("bone_mass_kg", Request.bone_mass_kg),
   ("water_percent", Request.water_percent),
   ("bmr_kcal", Request.bmr_kcal), ("visceral_fat", Request.visceral_fat),
   ("metabolic_age", Request.metabolic_age),
   ("activity_level", Request.activity_level)]

/-- Name of the first required key absent from the request, following
the fixed enumeration order. -/
def firstMissing (r : Request) : Option String :=
  (requiredFields.find? fun p => (p.2 r).isNone).map fun p => p.1

/-- data.get of an optional key with its default (testapi1.py lines
67 to 71); lower-cased where noted there. -/
def allergyOf (r : Request) : String := strLower (r.user_allergy.getD "")

/-- The user_goal optional key with its default, lower-cased. -/
def goalOf (r : Request) : String := strLower (r.user_goal.getD "general-fitness")

/-- The input vector of testapi1.py lines 74 to 76: the 13 required
fields in the fixed documented order. -/
def input_features (p : UserProfile) : List ℚ :=
  [p.age, p.gender, p.height_cm, p.weight_kg, p.bmi, p.body_fat_percent,
   p.muscle_mass_kg, p.bone_mass_kg, p.water_percent, p.bmr_kcal,
   p.visceral_fat, p.metabolic_age, p.activity_level]

/-- A predictor: consumes the feature vector, yields the two prediction
integers indexed as predictions[0] and predictions[1]. -/
def Model : Type := List ℚ → ℤ × ℤ

/-- DummyModel.predict of testapi1.py lines 20 to 27, the model wrapped
around a successfully unpickled dict: bmr_kcal is index 9 of the vector,
activity_level index 12; Python int() truncates toward zero. -/
def heuristicModel : Model := fun features =>
  (pyInt ((features.getD 9 0) * (12 / 10)), pyInt ((features.getD 12 0) + 3))

/-- DummyModel.predict of testapi1.py lines 31 to 33, the fallback used
when loading the pickle fails: the constant pair (1800, 4). -/
def fallbackModel : Model := fun _ => (1800, 4)

/-- Outcome of the module-level pickle load of testapi1.py lines 8 to 13:
the load raised (loaded_obj set to None), or produced a dict, or produced
some non-dict object. -/
inductive LoadOutcome where
  | loadRaised : LoadOutcome
  | loadedDict : LoadOutcome
  | loadedNonDict : LoadOutcome
deriving DecidableEq

/-- Model selection of testapi1.py lines 16 to 34: the heuristic
DummyModel when the unpickled object is a dict, the constant fallback
DummyModel otherwise (including when loading raised). -/
def selectModel : LoadOutcome → Model
  | LoadOutcome.loadedDict => heuristicModel
  | _ => fallbackModel

/-- One row of the static meal catalog (testapi1.py lines 84 to 91). -/
structure MealCatalogEntry where
  meal : String
  food : String
  calories : String
  alternative : String
  allergen : String
deriving DecidableEq

/-- The static 3-entry meal catalog of testapi1.py lines 84 to 91. -/
def meals : List MealCatalogEntry :=
  [⟨"Breakfast", "Oatmeal + Nuts", "350 kcal", "Whole Wheat Toast", "nuts"⟩,
   ⟨"Lunch", "Grilled Chicken + Peanut Sauce", "600 kcal", "Tofu + Salad", "nuts"⟩,
   ⟨"Dinner", "Fish + Almond Quinoa", "500 kcal", "Lentil Soup + Rice", "nuts"⟩]

/-- An emitted meal-plan item (testapi1.py lines 96 to 108): only the
four keys Meal, Food, Calories, AllergySafe. -/
structure MealPlanItem where
  meal : String
  food : String
  calories : String
  allergySafe : Bool
deriving DecidableEq

/-- Python substring containment: needle occurs contiguously in hay. -/
def strContainsSub (hay needle : String) : Bool :=
  hasSubList needle.data hay.data

/-- The body of the meal loop of testapi1.py lines 93 to 108: substitute
the alternative food when the (already lower-cased) allergy string is
nonempty and occurs in the lower-cased allergen tag; either branch sets
AllergySafe to true. -/
def mkMealItem (allergy : String) (m : MealCatalogEntry) : MealPlanItem :=
  if allergy ≠ "" ∧ strContainsSub (strLower m.allergen) allergy = true then
    ⟨m.meal, m.alternative, m.calories, true⟩
  else
    ⟨m.meal, m.food, m.calories, true⟩

/-- The meal plan: the loop of testapi1.py lines 92 to 108 over the
static catalog, in table order. -/
def meal_plan (allergy : String) : List MealPlanItem :=
  meals.map (mkMealItem allergy)

/-- One row of the static workout catalog (testapi1.py lines 111 to 116).
The source key named Type is rendered wType, Type being reserved. -/
structure WorkoutCatalogEntry where
  exercise : String
  wType : String
  repsSets : String
  caloriesBurned : String
deriving DecidableEq

/-- The static 4-entry workout catalog of testapi1.py lines 111 to 116. -/
def workouts : List WorkoutCatalogEntry :=
  [⟨"Bench Press", "Strength", "4 sets x 8 reps", "250 kcal"⟩,
   ⟨"Deadlifts", "Strength", "4 sets x 6 reps", "300 kcal"⟩,
   ⟨"Cycling", "Cardio", "30 mins", "400 kcal"⟩,
   ⟨"Jump Rope", "Cardio", "15 mins", "150 kcal"⟩]

/-- The elif chain of the workout loop (testapi1.py lines 118 to 124),
deciding whether one catalog entry is kept for the given goal. -/
def keepWorkout (goal : String) (w : WorkoutCatalogEntry) : Bool :=
  if goal == "muscle-gain" && strLower w.wType == "strength" then true
  else if goal == "weight-loss" && strLower w.wType == "cardio" then true
  else if goal == "general-fitness" then true
  else false

/-- The workout plan: the loop of testapi1.py lines 117 to 124, appending
the kept catalog entries in table order. -/
def workout_plan (goal : String) : List WorkoutCatalogEntry :=
  workouts.filter (keepWorkout goal)

/-- The 200 response object of testapi1.py lines 127 to 132: exactly the
four top-level keys PredictedDiet, PredictedWorkout, MealPlan, WorkoutPlan. -/
structure SuccessResponse where
  predictedDiet : String
  predictedWorkout : String
  mealPlan : List MealPlanItem
  workoutPlan : List WorkoutCatalogEntry
deriving DecidableEq

/-- The HTTP outcome of predict_route: a 200 JSON body, or a 400 JSON
body whose single key error carries the given message. -/
inductive Response where
  | ok : SuccessResponse → Response
  | badRequest : String → Response
deriving DecidableEq

/-- predict_route of testapi1.py lines 45 to 133, with the module-level
model passed explicitly.  Missing required keys short-circuit to the 400
branch with the Python message text, quotes from str applied to a
KeyError included; otherwise the optional keys are read with defaults,
the feature vector built, the model applied, the two results formatted,
and the plans generated. -/
def predict_route (model : Model) (r : Request) : Response :=
  match parseProfile r with
  | Except.error f =>
      Response.badRequest ("Missing parameter: " ++ squote ++ f ++ squote)
  | Except.ok p =>
      let user_allergy := allergyOf r
      let user_preference := strLower (r.user_preference.getD "")
      let diet_type := r.diet_type.getD "Regular"
      let workout_preference := r.workout_preference.getD "Gym"
      let user_goal := goalOf r
      let features := input_features p
      let predictions := model features
      Response.ok
        ⟨toString predictions.1 ++ " kcal per day",
         toString predictions.2 ++ " workout days per week",
         meal_plan user_allergy,
         workout_plan user_goal⟩

/-- Projection of the meal plan out of a response; empty on the 400 branch. -/
def mealPlanOf : Response → List MealPlanItem
  | Response.ok resp => resp.mealPlan
  | Response.badRequest _ => []

/-- Projection of the workout plan out of a response; empty on the 400 branch. -/
def workoutPlanOf : Response → List WorkoutCatalogEntry
  | Response.ok resp => resp.workoutPlan
  | Response.badRequest _ => []

/-- A complete request: every required field present, bmr_kcal 1000 and
activity_level 0, no optional keys. -/
def exReq : Request :=
  ⟨some 30, some 0, some 180, some 80, some 24, some 20, some 35, some 3,
   some 55, some 1000, some 8, some 28, some 0,
   none, none, none, none, none⟩

/-- The profile parsed out of exReq. -/
def exProf : UserProfile :=
  ⟨30, 0, 180, 80, 24, 20, 35, 3, 55, 1000, 8, 28, 0⟩

/-- A profile with a negative bmr_kcal, where truncation toward zero and
the mathematical floor disagree. -/
def exProfNeg : UserProfile :=
  ⟨30, 0, 180, 80, 24, 20, 35, 3, 55, -1, 8, 28, 0⟩

/-- exReq with the bmi key absent. -/
def exReqMissing : Request :=
  ⟨some 30, some 0, some 180, some 80, none, some 20, some 35, some 3,
   some 55, some 1000, some 8, some 28, some 0,
   none, none, none, none, none⟩

/-- exReq with a mixed-case user_goal key. -/
def exReqGain : Request :=
  ⟨some 30, some 0, some 180, some 80, some 24, some 20, some 35, some 3,
   some 55, some 1000, some 8, some 28, some 0,
   none, none, none, none, some "Muscle-Gain"⟩

/-- exReq with a mixed-case user_allergy key that is a strict substring
of the allergen tag. -/
def exReqNut : Request :=
  ⟨some 30, some 0, some 180, some 80, some 24, some 20, some 35, some 3,
   some 55, some 1000, some 8, some 28, some 0,
   some "Nut", none, none, none, none⟩

/-- exReq with all three unused optional keys set. -/
def exReqOpt : Request :=
  ⟨some 30, some 0, some 180, some 80, some 24, some 20, some 35, some 3,
   some 55, some 1000, some 8, some 28, some 0,
   none, some "high-protein", some "Vegan", some "Home", none⟩

/-- When the 13 required keys parse, predict_route takes the 200 branch
and its body is assembled from the model output on the feature vector
and the two plan generators. -/
theorem route_ok (m : Model) (r : Request) (p : UserProfile)
    (h : parseProfile r = Except.ok p) :
    predict_route m r = Response.ok
      ⟨toString (m (input_features p)).1 ++ " kcal per day",
       toString (m (input_features p)).2 ++ " workout days per week",
       meal_plan (allergyOf r), workout_plan (goalOf r)⟩ := by
  simp only [predict_route]
  rw [h]

theorem parse_error_of_firstMissing (r : Request) (f : String)
    (h : firstMissing r = some f) : parseProfile r = Except.error f := by
  cases h1 : r.age with
  | none =>
    simp [firstMissing, requiredFields, List.find?, h1] at h
    subst h
    unfold parseProfile; rw [h1]; rfl
  | some v1 =>
  cases h2 : r.gender with
  | none =>
    simp [firstMissing, requiredFields, List.find?, h1, h2] at h
    subst h
    unfold parseProfile; rw [h1, h2]; rfl
  | some v2 =>
  cases h3 : r.height_cm with
  | none =>
    simp [firstMissing, requiredFields, List.find?, h1, h2, h3] at h
    subst h
    unfold parseProfile; rw [h1, h2, h3]; rfl
  | some v3 =>
  cases h4 : r.weight_kg with
  | none =>
    simp [firstMissing, requiredFields, List.find?, h1, h2, h3, h4] at h
    subst h
    unfold parseProfile; rw [h1, h2, h3, h4]; rfl
  | some v4 =>
  cases h5 : r.bmi with
  | none =>
    simp [firstMissing, requiredFields, List.find?, h1, h2, h3, h4, h5] at h
    subst h
    unfold parseProfile; rw [h1, h2, h3, h4, h5]; rfl
  | some v5 =>
  cases h6 : r.body_fat_percent with
  | none =>
    simp [firstMissing, requiredFields, List.find?, h1, h2, h3, h4, h5, h6] at h
    subst h
    unfold parseProfile; rw [h1, h2, h3, h4, h5, h6]; rfl
  | some v6 =>
  cases h7 : r.muscle_mass_kg with
  | none =>
    simp [firstMissing, requiredFields, List.find?, h1, h2, h3, h4, h5, h6, h7] at h
    subst h
    unfold parseProfile; rw [h1, h2, h3, h4, h5, h6, h7]; rfl
  | some v7 =>
  cases h8 : r.bone_mass_kg with
  | none =>
    simp [firstMissing, requiredFields, List.find?, h1, h2, h3, h4, h5, h6, h7, h8] at h
    subst h
    unfold parseProfile; rw [h1, h2, h3, h4, h5, h6, h7, h8]; rfl
  | some v8 =>
  cases h9 : r.water_percent with
  | none =>
    simp [firstMissing, requiredFields, List.find?, h1, h2, h3, h4, h5, h6, h7, h8, h9] at h
    subst h
    unfold parseProfile; rw [h1, h2, h3, h4, h5, h6, h7, h8, h9]; rfl
  | some v9 =>
  cases h10 : r.bmr_kcal with
  | none =>
    simp [firstMissing, requiredFields, List.find?, h1, h2, h3, h4, h5, h6, h7, h8, h9, h10] at h
    subst h
    unfold parseProfile; rw [h1, h2, h3, h4, h5, h6, h7, h8, h9, h10]; rfl
  | some v10 =>
  cases h11 : r.visceral_fat with
  | none =>
    simp [firstMissing, requiredFields, List.find?, h1, h2, h3, h4, h5, h6, h7, h8, h9, h10, h11] at h
    subst h
    unfold parseProfile; rw [h1, h2, h3, h4, h5, h6, h7, h8, h9, h10, h11]; rfl
  | some v11 =>
  cases h12 : r.metabolic_age with
  | none =>
    simp [firstMissing, requiredFields, List.find?, h1, h2, h3, h4, h5, h6, h7, h8, h9, h10, h11, h12] at h
    subst h
    unfold parseProfile; rw [h1, h2, h3, h4, h5, h6, h7, h8, h9, h10, h11, h12]; rfl
  | some v12 =>
  cases h13 : r.activity_level with
  | none =>
    simp [firstMissing, requiredFields, List.find?, h1, h2, h3, h4, h5, h6, h7, h8, h9, h10, h11, h12, h13] at h
    subst h
    unfold parseProfile; rw [h1, h2, h3, h4, h5, h6, h7, h8, h9, h10, h11, h12, h13]; rfl
  | some v13 =>
  simp [firstMissing, requiredFields, List.find?, h1, h2, h3, h4, h5, h6, h7, h8, h9, h10, h11, h12, h13] at h

/-- The helper used by the C5 theorem: for a catalog entry whose primary
and substitute foods differ, the emitted food names the substitute
exactly when the substitution condition holds, and the primary
otherwise. -/
theorem mkMealItem_food_spec (a : String) (mc : MealCatalogEntry)
    (hne : mc.food ≠ mc.alternative) :
    ((mkMealItem a mc).food = mc.alternative ↔
      (a ≠ "" ∧ strContainsSub (strLower mc.allergen) a = true)) ∧
    (¬(a ≠ "" ∧ strContainsSub (strLower mc.allergen) a = true) →
      (mkMealItem a mc).food = mc.food) := by
  unfold mkMealItem
  by_cases hc : a ≠ "" ∧ strContainsSub (strLower mc.allergen) a = true
  · simp [hc]
  · simp [hc]
    intro hfe
    exact absurd hfe hne

/-- Claim C1, counterexample: with the predictor failing to load at
startup, the valid request exReq (bmr_kcal 1000, activity_level 0) is
served the constant prediction 1800 kcal per day, while the documented
heuristic formula floor of bmr_kcal times 1.2 gives 1200, so the
prediction outputs do not equal the heuristic formulas. -/
theorem C1_counterexample_load_failure_constant :
    exReq.bmr_kcal = some (1000 : ℚ)
    ∧ predict_route (selectModel LoadOutcome.loadRaised) exReq = Response.ok
        ⟨"1800 kcal per day", "4 workout days per week",
         meal_plan (allergyOf exReq), workout_plan (goalOf exReq)⟩
    ∧ (⌊(1000 : ℚ) * (12 / 10)⌋ : ℤ) = 1200
    ∧ ("1800 kcal per day" ≠ ("1200 kcal per day" : String)) :=
  ⟨rfl, rfl, by norm_num, by decide⟩

/-- Claim C1 as amended: when the predictor fails to load at startup the
process keeps serving valid requests, but with the constant fallback
predictor, answering 1800 kcal per day and 4 workout days per week for
every valid request; the heuristic formulas belong to the model used
when the pickle loads as a dict. -/
theorem C1_load_failure_serves_constant_fallback (r : Request)
    (p : UserProfile) (h : parseProfile r = Except.ok p) :
    predict_route (selectModel LoadOutcome.loadRaised) r = Response.ok
      ⟨"1800 kcal per day", "4 workout days per week",
       meal_plan (allergyOf r), workout_plan (goalOf r)⟩ := by
  simp only [predict_route]
  rw [h]
  rfl

/-- Claim C1, witness: the amended statement at the concrete request exReq. -/
theorem C1_load_failure_witness :
    parseProfile exReq = Except.ok exProf
    ∧ predict_route (selectModel LoadOutcome.loadRaised) exReq = Response.ok
        ⟨"1800 kcal per day", "4 workout days per week",
         meal_plan (allergyOf exReq), workout_plan (goalOf exReq)⟩ :=
  ⟨rfl, C1_load_failure_serves_constant_fallback exReq exProf rfl⟩

/-- Claim C2, counterexample: at a UserProfile with bmr_kcal equal to
minus one, the heuristic predictor answers minus one (Python int()
truncates toward zero) while the mathematical floor of bmr_kcal times
1.2 is minus two, so predicted_diet is not the floor for negative
inputs. -/
theorem C2_counterexample_negative_bmr :
    exProfNeg.bmr_kcal = (-1 : ℚ)
    ∧ (heuristicModel (input_features exProfNeg)).1 = -1
    ∧ (⌊exProfNeg.bmr_kcal * (12 / 10 : ℚ)⌋ : ℤ) = -2
    ∧ ((-1 : ℤ) ≠ -2) := by
  refine ⟨rfl, ?_, by norm_num [exProfNeg], by decide⟩
  show pyInt ((-1 : ℚ) * (12 / 10)) = -1
  rw [show ((-1 : ℚ) * (12 / 10)) = -(6 / 5) by norm_num]
  rw [pyInt, if_neg (by norm_num), Int.ceil_neg]
  norm_num

/-- Claim C2 as amended: under the heuristic predictor the predictions
are the Python int() conversions, truncation toward zero, of bmr_kcal
times 1.2 and of activity_level plus 3; each coincides with the
mathematical floor whenever its argument is nonnegative, which covers
every nonnegative bmr_kcal and every activity_level at least minus 3. -/
theorem C2_heuristic_truncates_toward_zero (p : UserProfile) :
    heuristicModel (input_features p) =
      (pyInt (p.bmr_kcal * (12 / 10)), pyInt (p.activity_level + 3))
    ∧ (0 ≤ p.bmr_kcal * (12 / 10) →
        (heuristicModel (input_features p)).1 = ⌊p.bmr_kcal * (12 / 10)⌋)
    ∧ (0 ≤ p.activity_level + 3 →
        (heuristicModel (input_features p)).2 = ⌊p.activity_level + 3⌋) := by
  refine ⟨rfl, fun h => ?_, fun h => ?_⟩
  · show pyInt (p.bmr_kcal * (12 / 10)) = _
    rw [pyInt, if_pos h]
  · show pyInt (p.activity_level + 3) = _
    rw [pyInt, if_pos h]

/-- Claim C2, witness: the amended statement at the concrete profile
exProf, whose bmr_kcal and activity_level are nonnegative. -/
theorem C2_heuristic_truncates_witness :
    (0 ≤ exProf.bmr_kcal * (12 / 10 : ℚ))
    ∧ (0 ≤ exProf.activity_level + (3 : ℚ))
    ∧ (heuristicModel (input_features exProf)).1 = ⌊exProf.bmr_kcal * (12 / 10 : ℚ)⌋
    ∧ (heuristicModel (input_features exProf)).2 = ⌊exProf.activity_level + (3 : ℚ)⌋ :=
  ⟨by norm_num [exProf], by norm_num [exProf],
   (C2_heuristic_truncates_toward_zero exProf).2.1 (by norm_num [exProf]),
   (C2_heuristic_truncates_toward_zero exProf).2.2 (by norm_num [exProf])⟩

/-- Claim C3: when at least one of the 13 required keys is absent,
predict_route returns the 400 branch whose error text names, in single
quotes, the first missing key in the fixed enumeration order, and this
holds for every model, so no prediction or plan generation affects the
outcome. -/
theorem C3_missing_field_first_in_order (m : Model) (r : Request)
    (f : String) (h : firstMissing r = some f) :
    predict_route m r = Response.badRequest
      ("Missing parameter: " ++ squote ++ f ++ squote) := by
  simp only [predict_route]
  rw [parse_error_of_firstMissing r f h]

/-- Claim C3, witness: the request exReqMissing lacks exactly the bmi
key, and the handler answers the 400 error naming bmi. -/
theorem C3_missing_field_witness :
    firstMissing exReqMissing = some "bmi"
    ∧ predict_route heuristicModel exReqMissing = Response.badRequest
        ("Missing parameter: " ++ squote ++ "bmi" ++ squote) :=
  ⟨by decide,
   C3_missing_field_first_in_order heuristicModel exReqMissing "bmi" (by decide)⟩

/-- Claim C4: the WorkoutPlan of any successfully handled request is the
filter of the 4-entry workout table by the lower-cased goal, in table
order; muscle-gain keeps exactly the two Strength entries, weight-loss
exactly the two Cardio entries, general-fitness all four, and any other
goal none. -/
theorem C4_goal_filters_workout_table (m : Model) (r : Request)
    (p : UserProfile) (h : parseProfile r = Except.ok p) :
    workoutPlanOf (predict_route m r) = workout_plan (goalOf r)
    ∧ (goalOf r = "muscle-gain" → workout_plan (goalOf r) =
        [⟨"Bench Press", "Strength", "4 sets x 8 reps", "250 kcal"⟩,
         ⟨"Deadlifts", "Strength", "4 sets x 6 reps", "300 kcal"⟩])
    ∧ (goalOf r = "weight-loss" → workout_plan (goalOf r) =
        [⟨"Cycling", "Cardio", "30 mins", "400 kcal"⟩,
         ⟨"Jump Rope", "Cardio", "15 mins", "150 kcal"⟩])
    ∧ (goalOf r = "general-fitness" → workout_plan (goalOf r) = workouts)
    ∧ (goalOf r ≠ "muscle-gain" → goalOf r ≠ "weight-loss" →
        goalOf r ≠ "general-fitness" → workout_plan (goalOf r) = []) := by
  refine ⟨?_, fun hg => by rw [hg]; decide, fun hg => by rw [hg]; decide,
          fun hg => by rw [hg]; decide, fun hg1 hg2 hg3 => ?_⟩
  · rw [route_ok m r p h]
    rfl
  · simp [workout_plan, workouts, keepWorkout, List.filter, hg1, hg2, hg3]

/-- Claim C4, witness: the mixed-case goal Muscle-Gain is lower-cased
and selects exactly the two Strength entries. -/
theorem C4_goal_filters_witness :
    goalOf exReqGain = "muscle-gain"
    ∧ workoutPlanOf (predict_route heuristicModel exReqGain) =
        workout_plan (goalOf exReqGain)
    ∧ workout_plan (goalOf exReqGain) =
        [⟨"Bench Press", "Strength", "4 sets x 8 reps", "250 kcal"⟩,
         ⟨"Deadlifts", "Strength", "4 sets x 6 reps", "300 kcal"⟩] :=
  ⟨by decide,
   (C4_goal_filters_workout_table heuristicModel exReqGain exProf rfl).1,
   (C4_goal_filters_workout_table heuristicModel exReqGain exProf rfl).2.1
     (by decide)⟩

/-- Claim C5: the MealPlan of any successfully handled request maps the
substitution rule over the 3-entry meal table in order, and for each
entry the emitted food is the substitute exactly when the lower-cased
allergy string is nonempty and occurs as a substring of the lower-cased
allergen tag, and the primary food otherwise. -/
theorem C5_allergy_substitution (m : Model) (r : Request)
    (p : UserProfile) (h : parseProfile r = Except.ok p) :
    mealPlanOf (predict_route m r) = meals.map (mkMealItem (allergyOf r))
    ∧ ∀ mc ∈ meals,
        ((mkMealItem (allergyOf r) mc).food = mc.alternative ↔
          (allergyOf r ≠ "" ∧
            strContainsSub (strLower mc.allergen) (allergyOf r) = true))
        ∧ (¬(allergyOf r ≠ "" ∧
              strContainsSub (strLower mc.allergen) (allergyOf r) = true) →
            (mkMealItem (allergyOf r) mc).food = mc.food) := by
  constructor
  · rw [route_ok m r p h]
    rfl
  · intro mc hmc
    simp only [meals, List.mem_cons, List.not_mem_nil, or_false] at hmc
    rcases hmc with hmc | hmc | hmc <;> subst hmc <;>
      exact mkMealItem_food_spec _ _ (by decide)

/-- Claim C5, witness: the mixed-case allergy Nut is lower-cased to nut,
a strict substring of the allergen tag nuts, and the Breakfast entry is
substituted. -/
theorem C5_allergy_substitution_witness :
    allergyOf exReqNut = "nut"
    ∧ (mkMealItem (allergyOf exReqNut)
        ⟨"Breakfast", "Oatmeal + Nuts", "350 kcal", "Whole Wheat Toast", "nuts"⟩).food =
      "Whole Wheat Toast" :=
  ⟨by decide,
   ((C5_allergy_substitution heuristicModel exReqNut exProf rfl).2
       ⟨"Breakfast", "Oatmeal + Nuts", "350 kcal", "Whole Wheat Toast", "nuts"⟩
       (by decide)).1.mpr ⟨by decide, by decide⟩⟩

/-- Claim C6: every item of the meal plan carries AllergySafe true, for
every allergy string and every handled request, in both the substitution
and the primary-food branch. -/
theorem C6_allergy_safe_always_true (m : Model) (r : Request) (a : String) :
    ((meal_plan a).all fun i => i.allergySafe) = true
    ∧ ((mealPlanOf (predict_route m r)).all fun i => i.allergySafe) = true := by
  constructor
  · simp [meal_plan, meals, mkMealItem, List.all,
      apply_ite MealPlanItem.allergySafe]
  · cases hp : parseProfile r with
    | error f =>
      simp [predict_route, hp, mealPlanOf]
    | ok p =>
      rw [route_ok m r p hp]
      show ((meal_plan (allergyOf r)).all fun i => i.allergySafe) = true
      simp [meal_plan, meals, mkMealItem, List.all,
        apply_ite MealPlanItem.allergySafe]

/-- Claim C7: the feature vector is exactly the 13 required field
values in the fixed documented order, has length 13, and is what the
handler passes to the model on the 200 branch. -/
theorem C7_feature_vector_order (m : Model) (r : Request)
    (p : UserProfile) (h : parseProfile r = Except.ok p) :
    input_features p =
      [p.age, p.gender, p.height_cm, p.weight_kg, p.bmi, p.body_fat_percent,
       p.muscle_mass_kg, p.bone_mass_kg, p.water_percent, p.bmr_kcal,
       p.visceral_fat, p.metabolic_age, p.activity_level]
    ∧ (input_features p).length = 13
    ∧ predict_route m r = Response.ok
        ⟨toString (m (input_features p)).1 ++ " kcal per day",
         toString (m (input_features p)).2 ++ " workout days per week",
         meal_plan (allergyOf r), workout_plan (goalOf r)⟩ :=
  ⟨rfl, rfl, route_ok m r p h⟩

/-- Claim C7, witness: the statement at the concrete request exReq. -/
theorem C7_feature_vector_witness :
    parseProfile exReq = Except.ok exProf
    ∧ (input_features exProf).length = 13 :=
  ⟨rfl, (C7_feature_vector_order heuristicModel exReq exProf rfl).2.1⟩

/-- Claim C8: two requests agreeing on the 13 required keys, on
user_allergy and on user_goal, but differing arbitrarily in
user_preference, diet_type and workout_preference, receive identical
responses under every model: the three optional keys are accepted but
unused. -/
theorem C8_unused_optional_fields (m : Model) (ra rb : Request)
    (e1 : ra.age = rb.age) (e2 : ra.gender = rb.gender)
    (e3 : ra.height_cm = rb.height_cm) (e4 : ra.weight_kg = rb.weight_kg)
    (e5 : ra.bmi = rb.bmi) (e6 : ra.body_fat_percent = rb.body_fat_percent)
    (e7 : ra.muscle_mass_kg = rb.muscle_mass_kg)
    (e8 : ra.bone_mass_kg = rb.bone_mass_kg)
    (e9 : ra.water_percent = rb.water_percent)
    (e10 : ra.bmr_kcal = rb.bmr_kcal)
    (e11 : ra.visceral_fat = rb.visceral_fat)
    (e12 : ra.metabolic_age = rb.metabolic_age)
    (e13 : ra.activity_level = rb.activity_level)
    (e14 : ra.user_allergy = rb.user_allergy)
    (e15 : ra.user_goal = rb.user_goal) :
    predict_route m ra = predict_route m rb := by
  simp only [predict_route, parseProfile, allergyOf, goalOf,
    e1, e2, e3, e4, e5, e6, e7, e8, e9, e10, e11, e12, e13, e14, e15]

/-- Claim C8, witness: exReqOpt sets user_preference, diet_type and
workout_preference while exReq leaves them absent; the responses are
identical. -/
theorem C8_unused_optional_fields_witness :
    exReqOpt.user_preference ≠ exReq.user_preference
    ∧ exReqOpt.diet_type ≠ exReq.diet_type
    ∧ exReqOpt.workout_preference ≠ exReq.workout_preference
    ∧ predict_route heuristicModel exReqOpt = predict_route heuristicModel exReq :=
  ⟨by decide, by decide, by decide,
   C8_unused_optional_fields heuristicModel exReqOpt exReq
     rfl rfl rfl rfl rfl rfl rfl rfl rfl rfl rfl rfl rfl rfl rfl⟩

/-- Claim C9: every successfully handled request is answered with the
object of exactly the four keys PredictedDiet, PredictedWorkout,
MealPlan, WorkoutPlan, the first two being the integer predictions
interpolated into the literal strings with the kcal per day and workout
days per week suffixes. -/
theorem C9_response_shape (m : Model) (r : Request) (p : UserProfile)
    (h : parseProfile r = Except.ok p) :
    predict_route m r = Response.ok
      ⟨toString (m (input_features p)).1 ++ " kcal per day",
       toString (m (input_features p)).2 ++ " workout days per week",
       meal_plan (allergyOf r), workout_plan (goalOf r)⟩ :=
  route_ok m r p h

/-- Claim C9, witness: at exReq under the heuristic model the two
formatted strings are 1200 kcal per day and 3 workout days per week. -/
theorem C9_response_shape_witness :
    predict_route heuristicModel exReq = Response.ok
      ⟨"1200 kcal per day", "3 workout days per week",
       meal_plan (allergyOf exReq), workout_plan (goalOf exReq)⟩ := by
  have hr := C9_response_shape heuristicModel exReq exProf rfl
  have hm : heuristicModel (input_features exProf) = (1200, 3) := by
    simp only [heuristicModel, input_features, exProf, List.getD, pyInt]
    norm_num
  rw [hr, hm]
  rfl

/-- Claim C10: in both branches the emitted meal item keeps the catalog
entry Meal and Calories values unchanged, so a substituted item still
reports the original calorie string; the emitted item carries no
Allergen or Alternative key. -/
theorem C10_meal_calories_frame (a : String) (mc : MealCatalogEntry) :
    (mkMealItem a mc).meal = mc.meal
    ∧ (mkMealItem a mc).calories = mc.calories
    ∧ ((meal_plan a).map fun i => i.meal) = (meals.map fun e => e.meal)
    ∧ ((meal_plan a).map fun i => i.calories) = (meals.map fun e => e.calories) := by
  refine ⟨?_, ?_, ?_, ?_⟩
  · unfold mkMealItem
    by_cases hc : a ≠ "" ∧ strContainsSub (strLower mc.allergen) a = true <;>
      simp [hc]
  · unfold mkMealItem
    by_cases hc : a ≠ "" ∧ strContainsSub (strLower mc.allergen) a = true <;>
      simp [hc]
  · simp [meal_plan, meals, mkMealItem, apply_ite MealPlanItem.meal]
  · simp [meal_plan, meals, mkMealItem, apply_ite MealPlanItem.calories]
